import Mathlib

/-!
Shallow embedding of `src/sw/redis++/connection.cpp` (redis-plus-plus connection core).

Conventions of the embedding:

* `std::chrono::steady_clock::duration` is a count of nanosecond ticks, modelled as `Int`
  (libstdc++/libc++ use `ratio<1, 1000000000>`); `duration_cast` truncates toward zero,
  modelled with `Int.tdiv`.
* The hiredis library (`redisConnect*`, `redisSetTimeout`, `redisEnableKeepAlive`,
  `redisAppendCommandArgv`, `redisGetReply`) is external C code: its behaviour is an
  oracle, the `World` structure below.  A `redisContext` is modelled by its fields the
  connection code observes: the error code `err`, the diagnostic string `errstr`, and the
  outbound command buffer `obuf` (the sequence of commands appended and not yet flushed).
* C++ exceptions are modelled with `Except`; an operation that can throw returns
  `Except Err _` together with the post-state of the object (in C++ the object survives a
  throw with its mutations).
* `assert` has release (`NDEBUG`) semantics: it never alters control flow.  Each assert's
  condition is modelled as a plain `Bool`/`Prop` about the state at the assert site, so
  its validity can be settled separately.
-/

namespace SwRedis

/-- `Connection::Connector::_to_timeval`: decompose a `steady_clock::duration`
(nanosecond tick count) into `timeval`'s whole seconds and remaining microseconds via
two truncating `duration_cast`s, exactly as the source computes them:
`sec = duration_cast<seconds>(dur)` and `msec = duration_cast<microseconds>(dur - sec)`. -/
def toTimeval (dur : Int) : Int × Int :=
  let sec := dur.tdiv 1000000000
  let msec := (dur - sec * 1000000000).tdiv 1000
  (sec, msec)

/-- Modelled from the spec: `connection.h` (not under `src/`) declares
`enum class ConnectionType { TCP, UNIX }`.  A C++ scoped enum is represented by its
underlying integer, which a cast may set to any value, so the model keeps the raw
value: `TCP = 0`, `UNIX = 1`, anything else is an out-of-range value reaching the
`default` branch of the dispatch in `Connector::_connect`. -/
abbrev ConnectionType := Nat

def ConnectionType.TCP : ConnectionType := 0

def ConnectionType.UNIX : ConnectionType := 1

/-- Modelled from the spec: `ConnectionOptions` (declared in `connection.h`, not under
`src/`) — transport kind, host/port or path, connect/socket timeout durations,
keep-alive boolean, password (optional), database index (default 0).  Timeouts are
`steady_clock::duration` tick counts (`Int` nanoseconds). -/
structure ConnectionOptions where
  ctype : ConnectionType
  host : String
  port : Nat
  path : String
  connect_timeout : Int
  socket_timeout : Int
  keep_alive : Bool
  password : String
  db : Int
  deriving DecidableEq, Repr

/-- The hiredis error codes the connection code can observe on a context
(`REDIS_OK = ok`; `ioTimeout` is an I/O error whose `errno` is a timeout). -/
inductive HiredisErr where
  | ok
  | ioTimeout
  | io
  | eof
  | protocol
  | oom
  | other
  deriving DecidableEq, Repr

/-- The fields of a hiredis `redisContext` that `connection.cpp` observes: the fatal
error code and diagnostic string, and the outbound buffer holding the commands
appended (each command as its argument vector) and not yet flushed. -/
structure RedisContext where
  err : HiredisErr
  errstr : String
  obuf : List (List String)
  deriving DecidableEq, Repr

/-- Modelled from the spec: `Connection::broken()` (defined in `connection.h`, not under
`src/`) is a non-blocking query of the transport handle's fatal-error flag, i.e. whether
the context's error code is set. -/
def RedisContext.isBroken (ctx : RedisContext) : Bool :=
  match ctx.err with
  | .ok => false
  | _ => true

/-- The error taxonomy of the spec (the exception classes of `errors.h`, not under
`src/`): a generic `Error` (thrown directly by `connection.cpp` with a literal message),
plus connection-, configuration-, protocol-, timeout- and reply-class errors. -/
inductive Err where
  | error (msg : String)
  | connectionError (msg : String)
  | configurationError (msg : String)
  | protocolError (msg : String)
  | timeoutError (msg : String)
  | replyError (msg : String)
  | assertViolation (msg : String)
  deriving DecidableEq, Repr

/-- Modelled from the spec: `throw_error(const redisContext &, const std::string &)`
(`errors.h`, not under `src/`), as used for send/recv transport failures: it raises
TimeoutError when the handle's error state is a timed-out read, otherwise
ProtocolError, wrapping the transport's diagnostic text after the caller's info text. -/
def throwErrorCtx (ctx : RedisContext) (info : String) : Err :=
  match ctx.err with
  | .ioTimeout => .timeoutError (info ++ ": " ++ ctx.errstr)
  | _ => .protocolError (info ++ ": " ++ ctx.errstr)

/-- Modelled from the spec: the Reply kinds the external reply-decoding collaborator
distinguishes — status/error/integer/bulk-string/array (plus nil). -/
inductive ReplyType where
  | status
  | error
  | integer
  | string
  | array
  | nil
  deriving DecidableEq, Repr

/-- Modelled from the spec: a parsed protocol reply (`redisReply`, owned through
`ReplyUPtr`): its kind and its text payload (status line or server error text). -/
structure Reply where
  rtype : ReplyType
  str : String
  deriving DecidableEq, Repr

/-- Modelled from the spec: `reply::is_error` (`reply.h`, not under `src/`) — whether
the reply represents a server-reported error. -/
def Reply.isErrorReply (r : Reply) : Bool :=
  match r.rtype with
  | .error => true
  | _ => false

/-- Modelled from the spec: `throw_error(const redisReply &)` (`errors.h`, not under
`src/`) — raise a ReplyError carrying the server's error text. -/
def throwErrorReply (r : Reply) : Err :=
  .replyError r.str

/-- Modelled from the spec: `reply::expect_ok_status` (`reply.h`, not under `src/`) —
require the reply to be a success/OK status; any other reply is a failure. -/
def expectOkStatus (r : Reply) : Except Err Unit :=
  if r.rtype = ReplyType.status ∧ r.str = "OK" then Except.ok ()
  else Except.error (.error "NOT ok status reply")

/-- The raw hiredis connect call `Connector::_connect_tcp` / `_connect_unix` performs:
which entry point is invoked and with which arguments. -/
inductive ConnectCall where
  | tcpTimed (host : String) (port : Nat) (tv : Int × Int)
  | tcpBlocking (host : String) (port : Nat)
  | unixTimed (path : String) (tv : Int × Int)
  | unixBlocking (path : String)
  deriving DecidableEq, Repr

/-- Outcome of one `redisAppendCommandArgv` call.  On `REDIS_OK` hiredis only appends
the formatted command to the context's outbound buffer; on `REDIS_ERR` it records an
error code and diagnostic string on the context. -/
inductive AppendOutcome where
  | ok
  | fail (err : HiredisErr) (errstr : String)
  deriving DecidableEq, Repr

/-- Outcome of one `redisGetReply` call: `REDIS_OK` with a parsed reply, or `REDIS_ERR`
with the error code and diagnostic string hiredis records on the context. -/
inductive GetReplyOutcome where
  | reply (r : Reply)
  | fail (err : HiredisErr) (errstr : String)
  deriving DecidableEq, Repr

/-- The external world: the behaviour of hiredis and of the monotonic clock.
`handshake` answers the raw connect call; `appends` and `replies` are the scripted
outcomes of successive `redisAppendCommandArgv` / `redisGetReply` calls. -/
structure World where
  now : Int
  handshake : ConnectCall → Option RedisContext
  setTimeoutOk : Bool
  keepAliveOk : Bool
  appends : List AppendOutcome
  replies : List GetReplyOutcome

def World.popAppend (w : World) : AppendOutcome × World :=
  match w.appends with
  | [] => (.ok, w)
  | a :: rest => (a, { w with appends := rest })

def World.popReply (w : World) : GetReplyOutcome × World :=
  match w.replies with
  | [] => (.reply ⟨.nil, ""⟩, w)
  | r :: rest => (r, { w with replies := rest })

/-- `sw::redis::Connection`: owns one nullable transport handle (`ContextUPtr _ctx`;
`none` models a null pointer, e.g. after being moved from), the last-active timestamp,
and a copy of the options for reconnect. -/
structure Connection where
  _ctx : Option RedisContext
  _last_active : Int
  _opts : ConnectionOptions
  deriving DecidableEq, Repr

/-- `Connector::_connect_tcp`: with a connect timeout greater than zero, call
`redisConnectWithTimeout(host, port, _to_timeval(timeout))`; otherwise the blocking
`redisConnect(host, port)`.  This function computes which raw call is made. -/
def Connector.tcpCall (opts : ConnectionOptions) : ConnectCall :=
  if 0 < opts.connect_timeout then
    .tcpTimed opts.host opts.port (toTimeval opts.connect_timeout)
  else
    .tcpBlocking opts.host opts.port

/-- `Connector::_connect_unix`: with a connect timeout greater than zero, call
`redisConnectUnixWithTimeout(path, _to_timeval(timeout))`; otherwise the blocking
`redisConnectUnix(path)`. -/
def Connector.unixCall (opts : ConnectionOptions) : ConnectCall :=
  if 0 < opts.connect_timeout then
    .unixTimed opts.path (toTimeval opts.connect_timeout)
  else
    .unixBlocking opts.path

/-- `Connector::_connect`: dispatch on the connection type (TCP → `_connect_tcp`,
UNIX → `_connect_unix`, anything else → `throw Error("Unkonw connection type")`),
then `throw Error("Failed to allocate memory for connection.")` if the raw call
returned a null context, else wrap the context in the owning pointer. -/
def Connector._connect (opts : ConnectionOptions) (w : World) : Except Err RedisContext :=
  let raw : Except Err (Option RedisContext) :=
    if opts.ctype = ConnectionType.TCP then
      Except.ok (w.handshake (Connector.tcpCall opts))
    else if opts.ctype = ConnectionType.UNIX then
      Except.ok (w.handshake (Connector.unixCall opts))
    else
      Except.error (.error "Unkonw connection type")
  match raw with
  | .error e => .error e
  | .ok none => .error (.error "Failed to allocate memory for connection.")
  | .ok (some ctx) => .ok ctx

/-- `Connector::_set_socket_timeout`: no-op when the socket timeout is ≤ 0; otherwise
call `redisSetTimeout(ctx, _to_timeval(timeout))` and on failure raise through
`throw_error(ctx, "Failed to set socket timeout")` (configuration-class per the spec). -/
def Connector._set_socket_timeout (opts : ConnectionOptions) (ctx : RedisContext)
    (w : World) : Except Err RedisContext :=
  if opts.socket_timeout ≤ 0 then
    .ok ctx
  else if w.setTimeoutOk then
    .ok ctx
  else
    .error (.configurationError ("Failed to set socket timeout: " ++ ctx.errstr))

/-- `Connector::_enable_keep_alive`: no-op when keep-alive is not requested; otherwise
call `redisEnableKeepAlive(ctx)` and on failure raise through
`throw_error(ctx, "Failed to enable keep alive option")`. -/
def Connector._enable_keep_alive (opts : ConnectionOptions) (ctx : RedisContext)
    (w : World) : Except Err RedisContext :=
  if !opts.keep_alive then
    .ok ctx
  else if w.keepAliveOk then
    .ok ctx
  else
    .error (.configurationError ("Failed to enable keep alive option: " ++ ctx.errstr))

/-- The condition of `assert(ctx)` in `Connector::connect`, checked on the result of
`_connect`: the owning pointer is non-null. -/
def Connector.connectAssertCond (ctx : Option RedisContext) : Bool :=
  ctx.isSome

/-- `Connector::connect`: `_connect`, `assert(ctx)` (no control-flow effect in release
builds), `_set_socket_timeout`, `_enable_keep_alive`, return the configured handle. -/
def Connector.connect (opts : ConnectionOptions) (w : World) : Except Err RedisContext :=
  match Connector._connect opts w with
  | .error e => .error e
  | .ok ctx =>
    match Connector._set_socket_timeout opts ctx w with
    | .error e => .error e
    | .ok ctx' => Connector._enable_keep_alive opts ctx' w

/-- Modelled from the spec: `Connection::_context()` (defined in `connection.h`, not
under `src/`) returns the raw handle pointer and refreshes the last-active timestamp
around I/O activity. -/
def Connection.touch (c : Connection) (w : World) : Connection :=
  { c with _last_active := w.now }

/-- `Connection::send(int argc, const char **argv, const std::size_t *argv_len)`:
fetch the raw context (`assert(ctx != nullptr)`: a null handle is undefined, modelled
as a distinguished assert-violation error), append the command with
`redisAppendCommandArgv`, raising `throw_error(ctx, "Failed to send command")` when the
append fails; `assert(!broken())` afterwards has no control-flow effect. -/
def Connection.send (c : Connection) (args : List String) (w : World) :
    Connection × World × Except Err Unit :=
  match c._ctx with
  | none => (c, w, .error (.assertViolation "ctx != nullptr"))
  | some ctx =>
    let c := Connection.touch c w
    let (o, w) := w.popAppend
    match o with
    | .ok =>
      let ctx' := { ctx with obuf := ctx.obuf ++ [args] }
      ({ c with _ctx := some ctx' }, w, .ok ())
    | .fail e s =>
      let ctx' := { ctx with err := e, errstr := s }
      ({ c with _ctx := some ctx' }, w, .error (throwErrorCtx ctx' "Failed to send command"))

/-- The condition of `assert(!broken())` immediately after a successful append in
`Connection::send`: the post-append handle's error flag is clear. -/
def Connection.sendAssertCond (c : Connection) : Bool :=
  match c._ctx with
  | none => false
  | some ctx => !ctx.isBroken

/-- `Connection::CmdArgs`: an appendable argument vector of (pointer, length) pairs,
modelled as the referenced strings in order; `operator<<` pushes one argument. -/
structure CmdArgs where
  _argv : List String
  deriving DecidableEq, Repr

def CmdArgs.push (a : CmdArgs) (arg : String) : CmdArgs :=
  { _argv := a._argv ++ [arg] }

/-- `Connection::send(CmdArgs &args)`: same as the raw overload, appending the built
argument vector with `redisAppendCommandArgv(ctx, args.size(), args.argv(), args.argv_len())`. -/
def Connection.sendCmdArgs (c : Connection) (a : CmdArgs) (w : World) :
    Connection × World × Except Err Unit :=
  Connection.send c a._argv w

/-- `Connection::recv`: fetch the raw context (`assert(ctx != nullptr)`), call
`redisGetReply`; on failure raise `throw_error(ctx, "Failed to get reply")` with the
error state hiredis recorded on the context; on success (`assert(!broken())` has no
control-flow effect) take ownership of the parsed reply, raise `throw_error(*reply)`
(a ReplyError with the server's text) if it is a server-reported error, otherwise
return the reply to the caller. -/
def Connection.recv (c : Connection) (w : World) :
    Connection × World × Except Err Reply :=
  match c._ctx with
  | none => (c, w, .error (.assertViolation "ctx != nullptr"))
  | some ctx =>
    let c := Connection.touch c w
    let (o, w) := w.popReply
    match o with
    | .fail e s =>
      let ctx' := { ctx with err := e, errstr := s }
      ({ c with _ctx := some ctx' }, w, .error (throwErrorCtx ctx' "Failed to get reply"))
    | .reply r =>
      if r.isErrorReply then
        (c, w, .error (throwErrorReply r))
      else
        (c, w, .ok r)

/-- `Connection::_auth`: skip entirely when no password is configured; otherwise
`cmd::auth(*this, password)` (modelled from the spec: sends the AUTH command with the
password through `send`), `recv()` the immediate reply, and
`reply::expect_ok_status` on it. -/
def Connection._auth (c : Connection) (w : World) : World × Except Err Connection :=
  if c._opts.password = "" then
    (w, .ok c)
  else
    match Connection.send c ["AUTH", c._opts.password] w with
    | (_, w, .error e) => (w, .error e)
    | (c, w, .ok ()) =>
      match Connection.recv c w with
      | (_, w, .error e) => (w, .error e)
      | (c, w, .ok r) =>
        match expectOkStatus r with
        | .error e => (w, .error e)
        | .ok () => (w, .ok c)

/-- `Connection::_select_db`: skip entirely when the configured database index is 0;
otherwise `cmd::select(*this, db)` (modelled from the spec: sends the SELECT command
with the index through `send`), `recv()` the reply, and `reply::expect_ok_status`. -/
def Connection._select_db (c : Connection) (w : World) : World × Except Err Connection :=
  if c._opts.db = 0 then
    (w, .ok c)
  else
    match Connection.send c ["SELECT", toString c._opts.db] w with
    | (_, w, .error e) => (w, .error e)
    | (c, w, .ok ()) =>
      match Connection.recv c w with
      | (_, w, .error e) => (w, .error e)
      | (c, w, .ok r) =>
        match expectOkStatus r with
        | .error e => (w, .error e)
        | .ok () => (w, .ok c)

/-- `Connection::_set_options`: `_auth()` then `_select_db()`. -/
def Connection._set_options (c : Connection) (w : World) : World × Except Err Connection :=
  match Connection._auth c w with
  | (w, .error e) => (w, .error e)
  | (w, .ok c) => Connection._select_db c w

/-- The condition of the assert in the body of `Connection::Connection` — the source
reads `assert(!_ctx);`, i.e. it asserts the freshly initialised owning pointer is NULL. -/
def Connection.ctorAssertCond (ctxField : Option RedisContext) : Bool :=
  ctxField.isNone

/-- `Connection::Connection(const ConnectionOptions &)`: initialise `_ctx` from
`Connector(opts).connect()`, `_last_active` from `steady_clock::now()`, `_opts` from a
copy of the options; then (after the assert, which has no control-flow effect)
`throw_error(*_ctx, "Failed to connect to Redis")` if the handle reports itself broken
(connection-class per the spec), else run `_set_options`.  A throw destroys the
half-built object, so the error branch carries no Connection. -/
def Connection.construct (opts : ConnectionOptions) (w : World) :
    World × Except Err Connection :=
  match Connector.connect opts w with
  | .error e => (w, .error e)
  | .ok ctx =>
    let c : Connection := { _ctx := some ctx, _last_active := w.now, _opts := opts }
    if ctx.isBroken then
      (w, .error (.connectionError ("Failed to connect to Redis: " ++ ctx.errstr)))
    else
      Connection._set_options c w

/-- `swap(Connection &lhs, Connection &rhs)`: exchange the `_ctx`, `_last_active` and
`_opts` fields of the two objects. -/
def Connection.swap (lhs rhs : Connection) : Connection × Connection :=
  ({ _ctx := rhs._ctx, _last_active := rhs._last_active, _opts := rhs._opts },
   { _ctx := lhs._ctx, _last_active := lhs._last_active, _opts := lhs._opts })

/-- `Connection::reconnect`: construct `Connection connection(_opts)` — if that throws
the exception propagates and `*this` is untouched — then `swap(*this, connection)`; the
temporary, now holding the old state, is destroyed at scope exit. -/
def Connection.reconnect (c : Connection) (w : World) :
    World × Connection × Except Err Unit :=
  match Connection.construct c._opts w with
  | (w, .error e) => (w, c, .error e)
  | (w, .ok connection) =>
    let p := Connection.swap c connection
    (w, p.1, .ok ())

/-- Concrete sample data for witnesses: plain TCP options, no timeouts, no keep-alive,
no password, database 0. -/
def opts0 : ConnectionOptions :=
  { ctype := ConnectionType.TCP, host := "localhost", port := 6379, path := ""
    connect_timeout := 0, socket_timeout := 0, keep_alive := false, password := "", db := 0 }

/-- A fresh, healthy context. -/
def ctx0 : RedisContext := { err := .ok, errstr := "", obuf := [] }

/-- A world whose handshake always yields `ctx0` and whose configuration calls succeed. -/
def w0 : World :=
  { now := 0, handshake := fun _ => some ctx0, setTimeoutOk := true, keepAliveOk := true
    appends := [], replies := [] }

/-- The connection `Connection.construct opts0 w0` produces. -/
def conn0 : Connection := { _ctx := some ctx0, _last_active := 0, _opts := opts0 }

/-- The dispatch target of `Connector::_connect`'s switch for a valid connection type
(proof-side abbreviation of the two non-default cases). -/
def Connector.rawCall (opts : ConnectionOptions) : ConnectCall :=
  if opts.ctype = ConnectionType.TCP then Connector.tcpCall opts else Connector.unixCall opts

/-- A context hiredis has flagged broken (e.g. connection refused). -/
def brokenCtx : RedisContext := { err := .io, errstr := "Connection refused", obuf := [] }

/-- A world whose handshake returns a null context. -/
def wNull : World := { w0 with handshake := fun _ => none }

/-- A world whose handshake returns a broken context. -/
def wBroken : World := { w0 with handshake := fun _ => some brokenCtx }

/-- A server-reported error reply. -/
def errReply : Reply := { rtype := .error, str := "ERR unknown command" }

/-- An OK status reply. -/
def okReply : Reply := { rtype := .status, str := "OK" }

/-- A world scripting one recv that yields a server-reported error reply. -/
def wErr : World := { w0 with replies := [.reply errReply] }

/-- Options with a password configured. -/
def optsAuth : ConnectionOptions := { opts0 with password := "secret" }

/-- Options selecting logical database 5. -/
def optsDb : ConnectionOptions := { opts0 with db := 5 }

/-- Options with an out-of-range connection type (neither TCP nor UNIX). -/
def optsBad : ConnectionOptions := { opts0 with ctype := 2 }

/-- A connection to `ctx0` carrying `optsAuth`. -/
def connAuth : Connection := { _ctx := some ctx0, _last_active := 0, _opts := optsAuth }

/-- A connection to `ctx0` carrying `optsDb`. -/
def connDb : Connection := { _ctx := some ctx0, _last_active := 0, _opts := optsDb }

/-- A world scripting one successful append and one OK reply. -/
def wAuth : World := { w0 with appends := [.ok], replies := [.reply okReply] }

/-- A world scripting one failed append (out of memory). -/
def wOom : World := { w0 with appends := [.fail .oom "Out of memory"] }

/-- Options with a 2.5 s connect timeout. -/
def optsTimed : ConnectionOptions := { opts0 with connect_timeout := 2500000000 }

/-- `wAuth` after its one append outcome has been consumed. -/
def wAuth1 : World := { wAuth with appends := [] }

/-- `wAuth1` after its one reply outcome has been consumed. -/
def wAuth2 : World := { wAuth1 with replies := [] }

/-! ### Helper lemmas -/

theorem toTimeval_neg (d : Int) :
    toTimeval (-d) = (-(toTimeval d).1, -(toTimeval d).2) := by
  show ((-d).tdiv 1000000000, (-d - (-d).tdiv 1000000000 * 1000000000).tdiv 1000)
      = (-(d.tdiv 1000000000), -((d - d.tdiv 1000000000 * 1000000000).tdiv 1000))
  rw [Int.neg_tdiv]
  have h2 : -d - -(d.tdiv 1000000000) * 1000000000
      = -(d - d.tdiv 1000000000 * 1000000000) := by ring
  rw [h2, Int.neg_tdiv]

theorem toTimeval_nonneg_spec (d : Int) (hd : 0 ≤ d) :
    (toTimeval d).1 * 1000000 + (toTimeval d).2 = d.tdiv 1000 ∧
      0 ≤ (toTimeval d).2 ∧ (toTimeval d).2 < 1000000 := by
  have h1 : (toTimeval d).1 = d.tdiv 1000000000 := rfl
  have h2 : (toTimeval d).2 = (d - d.tdiv 1000000000 * 1000000000).tdiv 1000 := rfl
  rw [h1, h2]
  have e1 : d.tdiv 1000000000 = d / 1000000000 := Int.tdiv_eq_ediv hd (by norm_num)
  have e3 : d.tdiv 1000 = d / 1000 := Int.tdiv_eq_ediv hd (by norm_num)
  rw [e1, e3]
  have hr : 0 ≤ d - d / 1000000000 * 1000000000 := by omega
  have e2 : (d - d / 1000000000 * 1000000000).tdiv 1000
      = (d - d / 1000000000 * 1000000000) / 1000 := Int.tdiv_eq_ediv hr (by norm_num)
  rw [e2]
  exact ⟨by omega, by omega, by omega⟩

theorem send_ok_isSome (c c' : Connection) (args : List String) (w w' : World)
    (h : Connection.send c args w = (c', w', Except.ok ())) : c'._ctx.isSome = true := by
  cases hc : c._ctx with
  | none => simp [Connection.send, hc] at h
  | some ctx =>
    cases hp : w.popAppend with
    | mk o w1 =>
      cases o with
      | ok =>
        simp [Connection.send, hc, hp] at h
        obtain ⟨h1, -, -⟩ := h
        rw [← h1]
        rfl
      | fail e s => simp [Connection.send, hc, hp] at h

theorem recv_ok_ctx (c c' : Connection) (r : Reply) (w w' : World)
    (h : Connection.recv c w = (c', w', Except.ok r)) : c'._ctx = c._ctx := by
  cases hc : c._ctx with
  | none => simp [Connection.recv, hc] at h
  | some ctx =>
    cases hp : w.popReply with
    | mk o w1 =>
      cases o with
      | fail e s => simp [Connection.recv, hc, hp] at h
      | reply rr =>
        by_cases he : rr.isErrorReply = true
        · simp [Connection.recv, hc, hp, he] at h
        · simp [Connection.recv, hc, hp, he] at h
          obtain ⟨h1, -, -⟩ := h
          rw [← h1]
          exact hc

theorem auth_ok_isSome (c c' : Connection) (w w' : World)
    (h : Connection._auth c w = (w', Except.ok c')) :
    c' = c ∨ c'._ctx.isSome = true := by
  unfold Connection._auth at h
  by_cases hp : c._opts.password = ""
  · rw [if_pos hp] at h
    simp only [Prod.mk.injEq, Except.ok.injEq] at h
    exact Or.inl h.2.symm
  · rw [if_neg hp] at h
    rcases hs : Connection.send c ["AUTH", c._opts.password] w with ⟨c1, w1, res1⟩
    rw [hs] at h
    cases res1 with
    | error e => simp at h
    | ok u =>
      cases u
      dsimp only at h
      rcases hr : Connection.recv c1 w1 with ⟨c2, w2, res2⟩
      rw [hr] at h
      cases res2 with
      | error e => simp at h
      | ok r =>
        dsimp only at h
        cases he : expectOkStatus r with
        | error e => rw [he] at h; simp at h
        | ok u =>
          cases u
          rw [he] at h
          simp only [Prod.mk.injEq, Except.ok.injEq] at h
          refine Or.inr ?_
          rw [← h.2, recv_ok_ctx c1 c2 r w1 w2 hr]
          exact send_ok_isSome c c1 _ w w1 hs

theorem select_db_ok_isSome (c c' : Connection) (w w' : World)
    (h : Connection._select_db c w = (w', Except.ok c')) :
    c' = c ∨ c'._ctx.isSome = true := by
  unfold Connection._select_db at h
  by_cases hp : c._opts.db = 0
  · rw [if_pos hp] at h
    simp only [Prod.mk.injEq, Except.ok.injEq] at h
    exact Or.inl h.2.symm
  · rw [if_neg hp] at h
    rcases hs : Connection.send c ["SELECT", toString c._opts.db] w with ⟨c1, w1, res1⟩
    rw [hs] at h
    cases res1 with
    | error e => simp at h
    | ok u =>
      cases u
      dsimp only at h
      rcases hr : Connection.recv c1 w1 with ⟨c2, w2, res2⟩
      rw [hr] at h
      cases res2 with
      | error e => simp at h
      | ok r =>
        dsimp only at h
        cases he : expectOkStatus r with
        | error e => rw [he] at h; simp at h
        | ok u =>
          cases u
          rw [he] at h
          simp only [Prod.mk.injEq, Except.ok.injEq] at h
          refine Or.inr ?_
          rw [← h.2, recv_ok_ctx c1 c2 r w1 w2 hr]
          exact send_ok_isSome c c1 _ w w1 hs

theorem set_options_ok_isSome (c c' : Connection) (w w' : World)
    (h : Connection._set_options c w = (w', Except.ok c'))
    (hc : c._ctx.isSome = true) : c'._ctx.isSome = true := by
  unfold Connection._set_options at h
  rcases ha : Connection._auth c w with ⟨w1, res1⟩
  rw [ha] at h
  cases res1 with
  | error e => simp at h
  | ok c1 =>
    rcases auth_ok_isSome c c1 w w1 ha with h1 | h1
    · rcases select_db_ok_isSome c1 c' w1 w' h with h2 | h2
      · rw [h2, h1]; exact hc
      · exact h2
    · rcases select_db_ok_isSome c1 c' w1 w' h with h2 | h2
      · rw [h2]; exact h1
      · exact h2

/-! ### Claim theorems -/

/-- C1: while a Connection exists (here: is successfully constructed and not moved-from)
it holds exactly one non-null transport handle — but the assertion actually written in
the constructor body, `assert(!_ctx)`, has a false condition at that point for every
successful `Connector::connect` (whose own `assert(ctx)` holds): the source inverted
the intended check. -/
theorem c1_construct_nonnull_handle (opts : ConnectionOptions) (w w' : World)
    (c : Connection) (h : Connection.construct opts w = (w', Except.ok c)) :
    c._ctx.isSome = true ∧ Connection.ctorAssertCond c._ctx = false ∧
    (∀ ctx, Connector.connect opts w = Except.ok ctx →
        Connector.connectAssertCond (some ctx) = true ∧
        Connection.ctorAssertCond (some ctx) = false) := by
  have hsome : c._ctx.isSome = true := by
    unfold Connection.construct at h
    cases hcc : Connector.connect opts w with
    | error e => rw [hcc] at h; simp at h
    | ok ctx =>
      rw [hcc] at h
      dsimp only at h
      by_cases hb : ctx.isBroken = true
      · rw [if_pos hb] at h; simp at h
      · rw [if_neg hb] at h
        exact set_options_ok_isSome _ c w w' h rfl
  refine ⟨hsome, ?_, ?_⟩
  · cases hcx : c._ctx with
    | none => rw [hcx] at hsome; simp at hsome
    | some ctx => rfl
  · intro ctx _
    exact ⟨rfl, rfl⟩

/-- C1 witness: the plain TCP construction succeeds, the resulting connection holds a
non-null handle, and the constructor's written assert condition is false there. -/
theorem c1_construct_nonnull_handle_witness :
    conn0._ctx.isSome = true ∧ Connection.ctorAssertCond conn0._ctx = false ∧
    (∀ ctx, Connector.connect opts0 w0 = Except.ok ctx →
        Connector.connectAssertCond (some ctx) = true ∧
        Connection.ctorAssertCond (some ctx) = false) :=
  c1_construct_nonnull_handle opts0 w0 w0 conn0 rfl

/-- C2: `reconnect()` is all-or-nothing: if constructing the replacement from the
stored options throws, `this` is returned completely unmodified with the error; if it
succeeds, `swap` moves the fresh handle, timestamp and options into `this` (which
becomes exactly the fresh connection) and the discarded temporary holds all of the old
state. -/
theorem c2_reconnect_all_or_nothing (c : Connection) (w : World) :
    (∀ w' e, Connection.construct c._opts w = (w', Except.error e) →
        Connection.reconnect c w = (w', c, Except.error e)) ∧
    (∀ w' f, Connection.construct c._opts w = (w', Except.ok f) →
        Connection.reconnect c w = (w', f, Except.ok ()) ∧
        (Connection.swap c f).2._ctx = c._ctx ∧
        (Connection.swap c f).2._last_active = c._last_active ∧
        (Connection.swap c f).2._opts = c._opts) := by
  constructor
  · intro w' e h
    unfold Connection.reconnect
    rw [h]
  · intro w' f h
    unfold Connection.reconnect
    rw [h]
    exact ⟨rfl, rfl, rfl, rfl⟩

/-- C2 witness: reconnecting `conn0` (whose stored options rebuild it identically)
replaces it wholesale, and the temporary receives the old state. -/
theorem c2_reconnect_all_or_nothing_witness :
    Connection.reconnect conn0 w0 = (w0, conn0, Except.ok ()) ∧
    (Connection.swap conn0 conn0).2._ctx = conn0._ctx ∧
    (Connection.swap conn0 conn0).2._last_active = conn0._last_active ∧
    (Connection.swap conn0 conn0).2._opts = conn0._opts :=
  (c2_reconnect_all_or_nothing conn0 w0).2 w0 conn0 rfl

/-- C4: a connect timeout ≤ 0 makes both the TCP and the UNIX connector issue the
blocking, deadline-free hiredis connect call; a strictly positive connect timeout makes
them issue the timed call with the converted `timeval`. -/
theorem c4_connect_timeout_policy (opts : ConnectionOptions) :
    (opts.connect_timeout ≤ 0 →
        Connector.tcpCall opts = ConnectCall.tcpBlocking opts.host opts.port ∧
        Connector.unixCall opts = ConnectCall.unixBlocking opts.path) ∧
    (0 < opts.connect_timeout →
        Connector.tcpCall opts
          = ConnectCall.tcpTimed opts.host opts.port (toTimeval opts.connect_timeout) ∧
        Connector.unixCall opts
          = ConnectCall.unixTimed opts.path (toTimeval opts.connect_timeout)) := by
  constructor
  · intro h
    have hnot : ¬ 0 < opts.connect_timeout := by omega
    exact ⟨by simp [Connector.tcpCall, hnot], by simp [Connector.unixCall, hnot]⟩
  · intro h
    exact ⟨by simp [Connector.tcpCall, h], by simp [Connector.unixCall, h]⟩

/-- C4 witness: zero timeout gives the blocking calls; a 2.5 s timeout gives the timed
TCP call. -/
theorem c4_connect_timeout_policy_witness :
    (Connector.tcpCall opts0 = ConnectCall.tcpBlocking opts0.host opts0.port ∧
     Connector.unixCall opts0 = ConnectCall.unixBlocking opts0.path) ∧
    Connector.tcpCall optsTimed
      = ConnectCall.tcpTimed optsTimed.host optsTimed.port (toTimeval optsTimed.connect_timeout) :=
  ⟨(c4_connect_timeout_policy opts0).1 (by decide),
   ((c4_connect_timeout_policy optsTimed).2 (by decide)).1⟩

/-- C9: the timeout conversion decomposes a duration into whole seconds plus a
microsecond remainder with truncation only: seconds·10⁶ + microseconds equals the
duration truncated to microsecond resolution, and the microsecond remainder is < 10⁶. -/
theorem c9_toTimeval_truncation (dur : Int) :
    (toTimeval dur).1 * 1000000 + (toTimeval dur).2 = dur.tdiv 1000 ∧
    (toTimeval dur).2 < 1000000 := by
  rcases le_or_lt 0 dur with hd | hd
  · obtain ⟨h1, -, h3⟩ := toTimeval_nonneg_spec dur hd
    exact ⟨h1, h3⟩
  · have he : 0 ≤ -dur := by omega
    obtain ⟨h1, h2, -⟩ := toTimeval_nonneg_spec (-dur) he
    have hn := toTimeval_neg (-dur)
    rw [neg_neg] at hn
    have hflip : dur.tdiv 1000 = -((-dur).tdiv 1000) := by
      rw [← Int.neg_tdiv, neg_neg]
    constructor
    · rw [hn, hflip]
      dsimp only
      omega
    · rw [hn]
      dsimp only
      omega

/-- C10: for TCP or UNIX options the unknown-connection-type branch of
`Connector::_connect` is unreachable (its error is never the result); for any other
transport-kind value the dispatch throws that error instead of proceeding. -/
theorem c10_dispatch_unknown_type (opts : ConnectionOptions) (w : World) :
    ((opts.ctype = ConnectionType.TCP ∨ opts.ctype = ConnectionType.UNIX) →
        Connector._connect opts w ≠ Except.error (Err.error "Unkonw connection type")) ∧
    ((opts.ctype ≠ ConnectionType.TCP ∧ opts.ctype ≠ ConnectionType.UNIX) →
        Connector._connect opts w = Except.error (Err.error "Unkonw connection type")) := by
  constructor
  · rintro (hty | hty)
    · unfold Connector._connect
      rw [hty, if_pos rfl]
      cases w.handshake (Connector.tcpCall opts) <;> simp
    · unfold Connector._connect
      have hne : ConnectionType.UNIX ≠ ConnectionType.TCP := by decide
      rw [hty, if_neg hne, if_pos rfl]
      cases w.handshake (Connector.unixCall opts) <;> simp
  · rintro ⟨h1, h2⟩
    unfold Connector._connect
    rw [if_neg h1, if_neg h2]

/-- C10 witness: a TCP option never yields the unknown-type error; an out-of-range
type value 2 yields exactly it. -/
theorem c10_dispatch_unknown_type_witness :
    Connector._connect opts0 w0 ≠ Except.error (Err.error "Unkonw connection type") ∧
    Connector._connect optsBad w0 = Except.error (Err.error "Unkonw connection type") :=
  ⟨(c10_dispatch_unknown_type opts0 w0).1 (Or.inl rfl),
   (c10_dispatch_unknown_type optsBad w0).2 ⟨by decide, by decide⟩⟩

/-- C3: `recv()` splits outcomes three ways.  A parsed reply that is a server-reported
error raises a ReplyError carrying the server's text and leaves the handle unchanged
(not Broken); a transport-level read failure raises TimeoutError/ProtocolError built
from the error state hiredis recorded and leaves the handle Broken; a successful
non-error reply is returned, transferring ownership to the caller. -/
theorem c3_recv_split (c : Connection) (ctx : RedisContext) (w : World)
    (hc : c._ctx = some ctx) :
    (∀ r w', w.popReply = (GetReplyOutcome.reply r, w') → r.isErrorReply = true →
        Connection.recv c w
          = (Connection.touch c w, w', Except.error (Err.replyError r.str)) ∧
        (Connection.recv c w).1._ctx = some ctx) ∧
    (∀ e s w', w.popReply = (GetReplyOutcome.fail e s, w') → e ≠ HiredisErr.ok →
        Connection.recv c w
          = ({ Connection.touch c w with _ctx := some { ctx with err := e, errstr := s } },
             w',
             Except.error (throwErrorCtx { ctx with err := e, errstr := s }
               "Failed to get reply")) ∧
        RedisContext.isBroken { ctx with err := e, errstr := s } = true ∧
        (throwErrorCtx { ctx with err := e, errstr := s } "Failed to get reply"
            = Err.timeoutError ("Failed to get reply: " ++ s) ∨
         throwErrorCtx { ctx with err := e, errstr := s } "Failed to get reply"
            = Err.protocolError ("Failed to get reply: " ++ s))) ∧
    (∀ r w', w.popReply = (GetReplyOutcome.reply r, w') → r.isErrorReply = false →
        Connection.recv c w = (Connection.touch c w, w', Except.ok r)) := by
  refine ⟨?_, ?_, ?_⟩
  · intro r w' hp he
    have h1 : Connection.recv c w
        = (Connection.touch c w, w', Except.error (Err.replyError r.str)) := by
      simp [Connection.recv, hc, hp, he, throwErrorReply]
    refine ⟨h1, ?_⟩
    rw [h1]
    exact hc
  · intro e s w' hp hne
    refine ⟨?_, ?_, ?_⟩
    · simp [Connection.recv, hc, hp]
    · unfold RedisContext.isBroken
      cases e
      · exact absurd rfl hne
      all_goals rfl
    · unfold throwErrorCtx
      cases e
      · exact absurd rfl hne
      · exact Or.inl rfl
      all_goals exact Or.inr rfl
  · intro r w' hp he
    simp [Connection.recv, hc, hp, he]

/-- C3 witness: receiving a server-reported error reply on a healthy connection raises
ReplyError with the server's text and leaves the handle intact. -/
theorem c3_recv_split_witness :
    Connection.recv conn0 wErr
        = (Connection.touch conn0 wErr, { wErr with replies := [] },
           Except.error (Err.replyError errReply.str)) ∧
    (Connection.recv conn0 wErr).1._ctx = some ctx0 :=
  (c3_recv_split conn0 ctx0 wErr rfl).1 errReply { wErr with replies := [] } rfl rfl

/-- C5: during connect, a null handle from the raw handshake raises the allocation
message as a generic `Error` inside `Connector::_connect`, while a non-null handle with
the broken flag set survives the Connector and is raised by the Connection constructor
as a connection-class error; the two error values are never the same. -/
theorem c5_null_vs_broken (opts : ConnectionOptions) (w : World)
    (hty : opts.ctype = ConnectionType.TCP ∨ opts.ctype = ConnectionType.UNIX)
    (hst : opts.socket_timeout ≤ 0) (hka : opts.keep_alive = false) :
    (w.handshake (Connector.rawCall opts) = none →
        Connection.construct opts w
          = (w, Except.error (Err.error "Failed to allocate memory for connection."))) ∧
    (∀ ctx, w.handshake (Connector.rawCall opts) = some ctx → ctx.isBroken = true →
        Connection.construct opts w
          = (w, Except.error
                (Err.connectionError ("Failed to connect to Redis: " ++ ctx.errstr)))) ∧
    (∀ s t, Err.error s ≠ Err.connectionError t) := by
  have hraw : Connector.rawCall opts
      = (if opts.ctype = ConnectionType.TCP then Connector.tcpCall opts
         else Connector.unixCall opts) := rfl
  refine ⟨?_, ?_, fun s t h => Err.noConfusion h⟩
  · intro hnull
    have hc1 : Connector._connect opts w
        = Except.error (Err.error "Failed to allocate memory for connection.") := by
      rcases hty with hty | hty
      · rw [hraw, hty, if_pos rfl] at hnull
        unfold Connector._connect
        rw [hty, if_pos rfl, hnull]
      · have hne : ConnectionType.UNIX ≠ ConnectionType.TCP := by decide
        rw [hraw, hty, if_neg hne] at hnull
        unfold Connector._connect
        rw [hty, if_neg hne, if_pos rfl, hnull]
    have hc2 : Connector.connect opts w
        = Except.error (Err.error "Failed to allocate memory for connection.") := by
      unfold Connector.connect
      rw [hc1]
    unfold Connection.construct
    rw [hc2]
  · intro ctx hsome hb
    have hc1 : Connector._connect opts w = Except.ok ctx := by
      rcases hty with hty | hty
      · rw [hraw, hty, if_pos rfl] at hsome
        unfold Connector._connect
        rw [hty, if_pos rfl, hsome]
      · have hne : ConnectionType.UNIX ≠ ConnectionType.TCP := by decide
        rw [hraw, hty, if_neg hne] at hsome
        unfold Connector._connect
        rw [hty, if_neg hne, if_pos rfl, hsome]
    have hst' : Connector._set_socket_timeout opts ctx w = Except.ok ctx := by
      unfold Connector._set_socket_timeout
      rw [if_pos hst]
    have hka' : Connector._enable_keep_alive opts ctx w = Except.ok ctx := by
      unfold Connector._enable_keep_alive
      rw [hka]
      rfl
    have hc2 : Connector.connect opts w = Except.ok ctx := by
      unfold Connector.connect
      rw [hc1]
      dsimp only
      rw [hst']
      exact hka'
    unfold Connection.construct
    rw [hc2]
    dsimp only
    rw [if_pos hb]

/-- C5 witness: with TCP options, a null handshake yields the allocation error and a
broken handshake yields the connection-class constructor error. -/
theorem c5_null_vs_broken_witness :
    Connection.construct opts0 wNull
      = (wNull, Except.error (Err.error "Failed to allocate memory for connection.")) ∧
    Connection.construct opts0 wBroken
      = (wBroken, Except.error
            (Err.connectionError ("Failed to connect to Redis: " ++ brokenCtx.errstr))) :=
  ⟨(c5_null_vs_broken opts0 wNull (Or.inl rfl) (by decide) rfl).1 rfl,
   (c5_null_vs_broken opts0 wBroken (Or.inl rfl) (by decide) rfl).2.1 brokenCtx rfl rfl⟩

/-- C6: during construction, `_auth` sends an AUTH command exactly when a password is
configured.  With an empty password nothing is sent and nothing consumed; with a
password, AUTH with the password is appended to the handle's outbound buffer and the
immediate reply must be an OK status — an error reply raises ReplyError, any other
non-OK reply fails with the not-OK-status error — and an `_auth` failure is a
`_set_options` (construction) failure. -/
theorem c6_auth_policy (c : Connection) (ctx : RedisContext) (w : World)
    (hc : c._ctx = some ctx) :
    (c._opts.password = "" → Connection._auth c w = (w, Except.ok c)) ∧
    (∀ w1 r w2, c._opts.password ≠ "" →
        w.popAppend = (AppendOutcome.ok, w1) →
        w1.popReply = (GetReplyOutcome.reply r, w2) →
        ((r.rtype = ReplyType.status → r.str = "OK" →
            ∃ c', Connection._auth c w = (w2, Except.ok c') ∧
              c'._ctx = some { ctx with obuf := ctx.obuf ++ [["AUTH", c._opts.password]] } ∧
              c'._opts = c._opts) ∧
         (r.rtype = ReplyType.error →
            Connection._auth c w = (w2, Except.error (Err.replyError r.str))) ∧
         (r.isErrorReply = false → ¬(r.rtype = ReplyType.status ∧ r.str = "OK") →
            Connection._auth c w = (w2, Except.error (Err.error "NOT ok status reply"))))) ∧
    (∀ w' e, Connection._auth c w = (w', Except.error e) →
        Connection._set_options c w = (w', Except.error e)) := by
  refine ⟨?_, ?_, ?_⟩
  · intro hpw
    unfold Connection._auth
    rw [if_pos hpw]
  · intro w1 r w2 hpw hap hrep
    have hsend : Connection.send c ["AUTH", c._opts.password] w
        = ({ Connection.touch c w with
              _ctx := some { ctx with obuf := ctx.obuf ++ [["AUTH", c._opts.password]] } },
           w1, Except.ok ()) := by
      simp [Connection.send, hc, hap]
    set c1 : Connection := { Connection.touch c w with
        _ctx := some { ctx with obuf := ctx.obuf ++ [["AUTH", c._opts.password]] } }
      with hc1def
    have hc1ctx : c1._ctx
        = some { ctx with obuf := ctx.obuf ++ [["AUTH", c._opts.password]] } := rfl
    refine ⟨?_, ?_, ?_⟩
    · intro hrt hstr
      have hnoterr : r.isErrorReply = false := by
        simp [Reply.isErrorReply, hrt]
      have hrecv : Connection.recv c1 w1 = (Connection.touch c1 w1, w2, Except.ok r) := by
        simp [Connection.recv, hc1ctx, hrep, hnoterr]
      have hok : expectOkStatus r = Except.ok () := by
        unfold expectOkStatus
        rw [if_pos ⟨hrt, hstr⟩]
      refine ⟨Connection.touch c1 w1, ?_, rfl, rfl⟩
      unfold Connection._auth
      rw [if_neg hpw, hsend]
      dsimp only
      rw [hrecv]
      dsimp only
      rw [hok]
    · intro hrt
      have herr : r.isErrorReply = true := by
        simp [Reply.isErrorReply, hrt]
      have hrecv : Connection.recv c1 w1
          = (Connection.touch c1 w1, w2, Except.error (Err.replyError r.str)) := by
        simp [Connection.recv, hc1ctx, hrep, herr, throwErrorReply]
      unfold Connection._auth
      rw [if_neg hpw, hsend]
      dsimp only
      rw [hrecv]
    · intro hne hnok
      have hrecv : Connection.recv c1 w1 = (Connection.touch c1 w1, w2, Except.ok r) := by
        simp [Connection.recv, hc1ctx, hrep, hne]
      have hbad : expectOkStatus r = Except.error (Err.error "NOT ok status reply") := by
        unfold expectOkStatus
        rw [if_neg hnok]
      unfold Connection._auth
      rw [if_neg hpw, hsend]
      dsimp only
      rw [hrecv]
      dsimp only
      rw [hbad]
  · intro w' e h
    unfold Connection._set_options
    rw [h]

/-- C6 witness: authenticating with password "secret" against an OK reply appends
exactly the AUTH command and succeeds. -/
theorem c6_auth_policy_witness :
    ∃ c', Connection._auth connAuth wAuth = (wAuth2, Except.ok c') ∧
      c'._ctx = some { ctx0 with obuf := ctx0.obuf ++ [["AUTH", connAuth._opts.password]] } ∧
      c'._opts = connAuth._opts :=
  ((c6_auth_policy connAuth ctx0 wAuth rfl).2.1 wAuth1 okReply wAuth2
      (by decide) rfl rfl).1 rfl rfl

/-- C7: during construction, `_select_db` sends a SELECT command exactly when the
configured database index is non-zero, requiring an OK status with the same fatal
policy as AUTH (the command lands in the outbound buffer before construction finishes,
hence before any caller command can be appended); with index 0 no SELECT is issued; it
runs after `_auth` inside `_set_options`, whose failure is a construction failure. -/
theorem c7_select_db_policy (c : Connection) (ctx : RedisContext) (w : World)
    (hc : c._ctx = some ctx) :
    (c._opts.db = 0 → Connection._select_db c w = (w, Except.ok c)) ∧
    (∀ w1 r w2, c._opts.db ≠ 0 →
        w.popAppend = (AppendOutcome.ok, w1) →
        w1.popReply = (GetReplyOutcome.reply r, w2) →
        ((r.rtype = ReplyType.status → r.str = "OK" →
            ∃ c', Connection._select_db c w = (w2, Except.ok c') ∧
              c'._ctx = some { ctx with obuf := ctx.obuf ++ [["SELECT", toString c._opts.db]] } ∧
              c'._opts = c._opts) ∧
         (¬(r.rtype = ReplyType.status ∧ r.str = "OK") →
            ∃ e, Connection._select_db c w = (w2, Except.error e)))) ∧
    (∀ w1 c1 w' e, Connection._auth c w = (w1, Except.ok c1) →
        Connection._select_db c1 w1 = (w', Except.error e) →
        Connection._set_options c w = (w', Except.error e)) := by
  refine ⟨?_, ?_, ?_⟩
  · intro hdb
    unfold Connection._select_db
    rw [if_pos hdb]
  · intro w1 r w2 hdb hap hrep
    have hsend : Connection.send c ["SELECT", toString c._opts.db] w
        = ({ Connection.touch c w with
              _ctx := some { ctx with obuf := ctx.obuf ++ [["SELECT", toString c._opts.db]] } },
           w1, Except.ok ()) := by
      simp [Connection.send, hc, hap]
    set c1 : Connection := { Connection.touch c w with
        _ctx := some { ctx with obuf := ctx.obuf ++ [["SELECT", toString c._opts.db]] } }
      with hc1def
    have hc1ctx : c1._ctx
        = some { ctx with obuf := ctx.obuf ++ [["SELECT", toString c._opts.db]] } := rfl
    refine ⟨?_, ?_⟩
    · intro hrt hstr
      have hnoterr : r.isErrorReply = false := by
        simp [Reply.isErrorReply, hrt]
      have hrecv : Connection.recv c1 w1 = (Connection.touch c1 w1, w2, Except.ok r) := by
        simp [Connection.recv, hc1ctx, hrep, hnoterr]
      have hok : expectOkStatus r = Except.ok () := by
        unfold expectOkStatus
        rw [if_pos ⟨hrt, hstr⟩]
      refine ⟨Connection.touch c1 w1, ?_, rfl, rfl⟩
      unfold Connection._select_db
      rw [if_neg hdb, hsend]
      dsimp only
      rw [hrecv]
      dsimp only
      rw [hok]
    · intro hnok
      by_cases herr : r.isErrorReply = true
      · have hrecv : Connection.recv c1 w1
            = (Connection.touch c1 w1, w2, Except.error (Err.replyError r.str)) := by
          simp [Connection.recv, hc1ctx, hrep, herr, throwErrorReply]
        refine ⟨Err.replyError r.str, ?_⟩
        unfold Connection._select_db
        rw [if_neg hdb, hsend]
        dsimp only
        rw [hrecv]
      · have hnoterr : r.isErrorReply = false := by
          simpa using herr
        have hrecv : Connection.recv c1 w1 = (Connection.touch c1 w1, w2, Except.ok r) := by
          simp [Connection.recv, hc1ctx, hrep, hnoterr]
        have hbad : expectOkStatus r = Except.error (Err.error "NOT ok status reply") := by
          unfold expectOkStatus
          rw [if_neg hnok]
        refine ⟨Err.error "NOT ok status reply", ?_⟩
        unfold Connection._select_db
        rw [if_neg hdb, hsend]
        dsimp only
        rw [hrecv]
        dsimp only
        rw [hbad]
  · intro w1 c1 w' e ha hs
    unfold Connection._set_options
    rw [ha]
    dsimp only
    exact hs

/-- C7 witness: database index 5 issues exactly `SELECT 5` into the outbound buffer and
succeeds on an OK reply; database index 0 issues nothing. -/
theorem c7_select_db_policy_witness :
    (∃ c', Connection._select_db connDb wAuth = (wAuth2, Except.ok c') ∧
        c'._ctx = some { ctx0 with obuf := ctx0.obuf ++ [["SELECT", toString connDb._opts.db]] } ∧
        c'._opts = connDb._opts) ∧
    Connection._select_db conn0 wAuth = (wAuth, Except.ok conn0) :=
  ⟨((c7_select_db_policy connDb ctx0 wAuth rfl).2.1 wAuth1 okReply wAuth2
        (by decide) rfl rfl).1 rfl rfl,
   (c7_select_db_policy conn0 ctx0 wAuth rfl).1 rfl⟩

/-- C8: for a send on a non-null handle, a failed append raises ProtocolError wrapping
the transport's diagnostic text (an append never times out, so its error state is not
the timeout code); a successful append only extends the outbound buffer, and the
post-append assert condition `!broken()` holds whenever the handle was healthy; the
`CmdArgs` overload forwards to the same append. -/
theorem c8_send_policy (c : Connection) (ctx : RedisContext) (w : World)
    (args : List String) (hc : c._ctx = some ctx) :
    (∀ e s w', w.popAppend = (AppendOutcome.fail e s, w') → e ≠ HiredisErr.ioTimeout →
        Connection.send c args w
          = ({ Connection.touch c w with _ctx := some { ctx with err := e, errstr := s } },
             w', Except.error (Err.protocolError ("Failed to send command: " ++ s)))) ∧
    (∀ w', w.popAppend = (AppendOutcome.ok, w') → ctx.isBroken = false →
        Connection.send c args w
          = ({ Connection.touch c w with
                _ctx := some { ctx with obuf := ctx.obuf ++ [args] } }, w', Except.ok ()) ∧
        Connection.sendAssertCond
          { Connection.touch c w with
              _ctx := some { ctx with obuf := ctx.obuf ++ [args] } } = true) ∧
    Connection.sendCmdArgs c ⟨args⟩ w = Connection.send c args w := by
  refine ⟨?_, ?_, rfl⟩
  · intro e s w' hap hne
    have hcls : throwErrorCtx { ctx with err := e, errstr := s } "Failed to send command"
        = Err.protocolError ("Failed to send command: " ++ s) := by
      unfold throwErrorCtx
      cases e
      · rfl
      · exact absurd rfl hne
      all_goals rfl
    simp [Connection.send, hc, hap, hcls]
  · intro w' hap hnb
    refine ⟨?_, ?_⟩
    · simp [Connection.send, hc, hap]
    · unfold Connection.sendAssertCond
      dsimp only
      have hsame : RedisContext.isBroken { ctx with obuf := ctx.obuf ++ [args] }
          = RedisContext.isBroken ctx := rfl
      rw [hsame, hnb]
      rfl

/-- C8 witness: an out-of-memory append failure raises ProtocolError wrapping the
diagnostic text, and a successful append extends the buffer with the post-append
assert condition holding. -/
theorem c8_send_policy_witness :
    Connection.send conn0 ["PING"] wOom
      = ({ Connection.touch conn0 wOom with
            _ctx := some { ctx0 with err := .oom, errstr := "Out of memory" } },
         { wOom with appends := [] },
         Except.error (Err.protocolError ("Failed to send command: " ++ "Out of memory"))) ∧
    (Connection.send conn0 ["PING"] wAuth
      = ({ Connection.touch conn0 wAuth with
            _ctx := some { ctx0 with obuf := ctx0.obuf ++ [["PING"]] } },
         { wAuth with appends := [] }, Except.ok ()) ∧
     Connection.sendAssertCond
       { Connection.touch conn0 wAuth with
           _ctx := some { ctx0 with obuf := ctx0.obuf ++ [["PING"]] } } = true) :=
  ⟨(c8_send_policy conn0 ctx0 wOom ["PING"] rfl).1 .oom "Out of memory"
      { wOom with appends := [] } rfl (by decide),
   (c8_send_policy conn0 ctx0 wAuth ["PING"] rfl).2.1 { wAuth with appends := [] } rfl rfl⟩

end SwRedis
